import Mathlib

/-!
Verification development for the remnawave-telegram-shop purchase lifecycle
core: a shallow embedding of the payment orchestrator
(`PaymentService.ProcessPurchaseById` and friends), the invoice
reconciliation pollers (`checkYookasaInvoice`, `checkCryptoPayInvoice`),
the provisioning expiry computation (`getNewExpire`, both observed
variants), and the tax-receipt client (`moynalog.Client.CreateIncome`).

Times are modelled as integer seconds; `AddDate(0, 0, d)` becomes addition
of `d * 86400`, the Go zero `time.Time` becomes `0`, and `Before` becomes
`<`.  External collaborators (HTTP calls, the Telegram bot, the database
driver) are modelled as oracles supplied in environment structures; each
outbound call is recorded as an event so that call counts and orderings
can be stated.
-/

namespace RemnaShop

/-- Seconds per calendar day; `AddDate(0, 0, d)` adds `d` of these. -/
def secPerDay : Int := 86400

/-- Model of Go `t.AddDate(0, 0, d)`. -/
def addDays (t : Int) (d : Int) : Int := t + d * secPerDay

/-- Embedding of `getNewExpire` from `src/internal/remnawave/client.go`
(lines 377-390): non-positive deltas floor to now + 1 day; a zero or
elapsed current expiry resets to now + days; otherwise the renewal is
additive on the current expiry. -/
def getNewExpire (now : Int) (daysToAdd : Int) (currentExpire : Int) : Int :=
  if daysToAdd ≤ 0 then addDays now 1
  else if currentExpire = 0 then addDays now daysToAdd
  else if currentExpire < now then addDays now daysToAdd
  else addDays currentExpire daysToAdd

/-- Embedding of the second observed variant of `getNewExpire`
(`src/unnamed/part_001`, lines 391-405): for a non-positive delta it keeps
`currentExpire + days` when that still lies in the future and otherwise
floors to now + 1 day; the positive-delta branches agree with the other
variant. -/
def getNewExpireAlt (now : Int) (daysToAdd : Int) (currentExpire : Int) : Int :=
  if daysToAdd ≤ 0 then
    if addDays currentExpire daysToAdd < now then addDays now 1
    else addDays currentExpire daysToAdd
  else if currentExpire < now ∨ currentExpire = 0 then addDays now daysToAdd
  else addDays currentExpire daysToAdd

/-- C7: for every positive day count, both observed variants of
`getNewExpire` reset an elapsed or unset expiry to now + days and
otherwise extend the current expiry additively by days. -/
theorem C7_renewal_additivity (now d cur : Int) (hd : 0 < d) :
    ((cur = 0 ∨ cur < now) →
      getNewExpire now d cur = addDays now d ∧
      getNewExpireAlt now d cur = addDays now d) ∧
    (¬(cur = 0 ∨ cur < now) →
      getNewExpire now d cur = addDays cur d ∧
      getNewExpireAlt now d cur = addDays cur d) := by
  unfold getNewExpire getNewExpireAlt addDays secPerDay
  constructor
  · intro h
    constructor <;> split_ifs <;> omega
  · intro h
    constructor <;> split_ifs <;> omega

/-- Witness for C7 at the spec's own example: an account whose current
expiry is 10 days out buying a 30-day purchase ends 40 days out, not
now + 30 days, and an elapsed expiry resets to now + 30 days. -/
theorem C7_renewal_additivity_witness :
    (0 : Int) < 30 ∧
    getNewExpire 1000 30 (1000 + 10 * 86400) = 1000 + 10 * 86400 + 30 * 86400 ∧
    getNewExpireAlt 1000 30 (1000 + 10 * 86400) = 1000 + 10 * 86400 + 30 * 86400 ∧
    getNewExpire 1000 30 500 = 1000 + 30 * 86400 := by
  refine ⟨by norm_num, ?_, ?_, ?_⟩
  · have h := (C7_renewal_additivity 1000 30 (1000 + 10 * 86400) (by norm_num)).2
      (by omega)
    rw [h.1]
    unfold addDays secPerDay
    norm_num
  · have h := (C7_renewal_additivity 1000 30 (1000 + 10 * 86400) (by norm_num)).2
      (by omega)
    rw [h.2]
    unfold addDays secPerDay
    norm_num
  · have h := (C7_renewal_additivity 1000 30 500 (by norm_num)).1 (by omega)
    rw [h.1]
    unfold addDays secPerDay
    norm_num

/-- C10: for every non-positive day delta, neither variant of
`getNewExpire` ever returns a time earlier than now: the first variant
always floors to now + 1 day, and the second either floors to now + 1 day
or keeps `currentExpire + days` when that sum is not in the past. -/
theorem C10_nonpositive_delta_floor (now d cur : Int) (hd : d ≤ 0) :
    getNewExpire now d cur = addDays now 1 ∧
    (getNewExpireAlt now d cur = addDays now 1 ∨
      (getNewExpireAlt now d cur = addDays cur d ∧ now ≤ addDays cur d)) ∧
    now ≤ getNewExpire now d cur ∧
    now ≤ getNewExpireAlt now d cur := by
  unfold getNewExpire getNewExpireAlt addDays secPerDay
  refine ⟨?_, ?_, ?_, ?_⟩ <;> split_ifs <;> omega

/-- Witness for C10 at a concrete non-positive delta. -/
theorem C10_nonpositive_delta_floor_witness :
    (-5 : Int) ≤ 0 ∧
    getNewExpire 1000 (-5) 999999999 = 1000 + 86400 ∧
    1000 ≤ getNewExpireAlt 1000 (-5) 999999999 := by
  refine ⟨by norm_num, ?_, ?_⟩
  · have h := (C10_nonpositive_delta_floor 1000 (-5) 999999999 (by norm_num)).1
    rw [h]
    unfold addDays secPerDay
    norm_num
  · exact (C10_nonpositive_delta_floor 1000 (-5) 999999999 (by norm_num)).2.2.2

/-! ## Data model

`Purchase`, `Customer`, `Referral` mirror the columns the core reads and
writes (`src/unnamed/part_004`, `src/unnamed/part_000`); fields not
touched by the modelled operations (amount, currency, urls, timestamps)
are omitted. -/

/-- Purchase lifecycle status (`database.PurchaseStatus*`). -/
inductive PurchaseStatus
  | statusNew
  | statusPending
  | statusPaid
  | statusCancel
deriving DecidableEq, Repr

/-- Payment backend tag (`database.InvoiceType*`). -/
inductive InvoiceType
  | crypto
  | yookasa
  | telegram
  | tribute
deriving DecidableEq, Repr

/-- A purchase row: id, owning customer, backend, status, billing months
and the CryptoPay external invoice id used by the bulk poller. -/
structure Purchase where
  id : Int
  customerId : Int
  invoiceType : InvoiceType
  status : PurchaseStatus
  month : Int
  cryptoInvoiceId : Option Int
deriving DecidableEq, Repr

/-- A customer row: internal id, telegram id and the subscription fields
written back by the orchestrator (`subscription_link`, `expire_at`). -/
structure Customer where
  id : Int
  telegramId : Int
  subscriptionLink : Option String
  expireAt : Option Int
deriving DecidableEq, Repr

/-- A referral edge: referrer and referee telegram ids plus the one-shot
bonus flag. -/
structure Referral where
  id : Int
  referrerId : Int
  refereeId : Int
  bonusGranted : Bool
deriving DecidableEq, Repr

/-- The slice of a remnawave panel user the orchestrator consumes
(`user.SubscriptionUrl`, `user.ExpireAt`). -/
structure RemnaUser where
  subscriptionUrl : String
  expireAt : Int
deriving DecidableEq, Repr

/-- Persisted state owned by the core: purchases, customers, referrals. -/
structure Store where
  purchases : List Purchase
  customers : List Customer
  referrals : List Referral
deriving DecidableEq, Repr

/-- `purchaseRepository.FindById`. -/
def findPurchaseById (s : Store) (pid : Int) : Option Purchase :=
  s.purchases.find? (fun p => p.id == pid)

/-- `customerRepository.FindById`. -/
def findCustomerById (s : Store) (cid : Int) : Option Customer :=
  s.customers.find? (fun c => c.id == cid)

/-- `customerRepository.FindByTelegramId`. -/
def findCustomerByTelegramId (s : Store) (tid : Int) : Option Customer :=
  s.customers.find? (fun c => c.telegramId == tid)

/-- `referralRepository.FindByReferee`: the un/rewarded referral row whose
referee is the given telegram id. -/
def findReferralByReferee (s : Store) (tid : Int) : Option Referral :=
  s.referrals.find? (fun r => r.refereeId == tid)

/-- Status of the purchase with the given id, when present. -/
def purchaseStatus (s : Store) (pid : Int) : Option PurchaseStatus :=
  (findPurchaseById s pid).map (fun p => p.status)

/-- `purchaseRepository.UpdateFields(id, {status: st})`: set the status
column of the matching row. -/
def setPurchaseStatus (s : Store) (pid : Int) (st : PurchaseStatus) : Store :=
  { s with purchases :=
      s.purchases.map (fun p => if p.id == pid then { p with status := st } else p) }

/-- Modelled from the spec: `purchaseRepository.MarkAsPaid(id)` — the
repository implementation is not among the sources; §4.1 specifies a
status write that is safe to invoke on an already-`Paid` row (a no-op
there), which setting the status column to `Paid` satisfies. -/
def markAsPaid (s : Store) (pid : Int) : Store :=
  setPurchaseStatus s pid .statusPaid

/-- Modelled from the spec: `referralRepository.MarkBonusGranted(id)` —
the repository implementation is not among the sources; §4.4 step 8
specifies a guarded update, so the flag is flipped only when still
false. -/
def markBonusGranted (s : Store) (rid : Int) : Store :=
  { s with referrals :=
      s.referrals.map (fun r =>
        if r.id == rid && !r.bonusGranted then { r with bonusGranted := true } else r) }

/-- `customerRepository.UpdateFields(id, {subscription_link, expire_at})`. -/
def updateCustomerSubscription (s : Store) (cid : Int) (link : String) (expire : Int) : Store :=
  { s with customers :=
      s.customers.map (fun c =>
        if c.id == cid then { c with subscriptionLink := some link, expireAt := some expire } else c) }

/-- One outbound call made by the orchestrator; traces of these record
call counts and ordering. -/
inductive Event
  | deleteMessage (chatId : Int)
  | provision (customerId : Int) (telegramId : Int) (days : Int)
  | markPaid (purchaseId : Int)
  | customerUpdate (customerId : Int)
  | sendMessage (chatId : Int)
  | grantFlip (referralId : Int)
  | query (purchaseId : Int)
  | cancelAttempt (purchaseId : Int)
deriving DecidableEq, Repr

/-- True exactly on subscription-provisioning events
(`remnawaveClient.CreateOrUpdateUser` calls). -/
def isProvision (e : Event) : Bool :=
  match e with
  | .provision _ _ _ => true
  | _ => false

/-- True exactly on `MarkAsPaid` invocations. -/
def isMarkPaid (e : Event) : Bool :=
  match e with
  | .markPaid _ => true
  | _ => false

/-- True exactly on customer-record updates. -/
def isCustomerUpdate (e : Event) : Bool :=
  match e with
  | .customerUpdate _ => true
  | _ => false

/-- Injected configuration consumed by the orchestrator
(`config.TrafficLimit()`, `config.GetReferralDays()`). -/
structure Config where
  trafficLimit : Int
  referralDays : Int
deriving DecidableEq, Repr

/-- Oracle results for the external collaborators one
`ProcessPurchaseById` run touches, in call order: the message cache, the
provisioning client (`none` = error), the repository writes and the
notification sink (`false` = error), the referral lookup error flag and
the referral-branch collaborators. -/
structure Env where
  cachedMessageId : Option Int
  provisionResult : Option RemnaUser
  markAsPaidOk : Bool
  updateFieldsOk : Bool
  sendMessageOk : Bool
  findByRefereeErr : Bool
  referralProvisionResult : Option RemnaUser
  referralUpdateFieldsOk : Bool
  markBonusGrantedOk : Bool
deriving DecidableEq, Repr

/-- Embedding of `PaymentService.ProcessPurchaseById`
(`src/unnamed/part_004`, lines 247-348).  Returns the call result, the
trace of outbound calls, and the updated store.  The step order mirrors
the source exactly: find purchase, find customer, best-effort cached
invoice-message delete, `CreateOrUpdateUser` for `month * 30` days,
`MarkAsPaid`, customer `UpdateFields`, confirmation `SendMessage` (whose
error the source returns), then the referral cascade — `FindByReferee`
(nil checked before the error), referrer lookup, referrer
`CreateOrUpdateUser` for the configured referral days, referrer
`UpdateFields`, `MarkBonusGranted`, and a referrer notification whose
error is dropped. -/
def processPurchaseById (cfg : Config) (env : Env) (s : Store) (purchaseId : Int) :
    Except String Unit × List Event × Store :=
  match findPurchaseById s purchaseId with
  | none => (.error "purchase not found", [], s)
  | some purchase =>
    match findCustomerById s purchase.customerId with
    | none => (.error "customer not found", [], s)
    | some customer =>
      let ev1 : List Event :=
        match env.cachedMessageId with
        | some _ => [.deleteMessage customer.telegramId]
        | none => []
      let ev2 := ev1 ++ [.provision customer.id customer.telegramId (purchase.month * 30)]
      match env.provisionResult with
      | none => (.error "provision failed", ev2, s)
      | some user =>
        let ev3 := ev2 ++ [.markPaid purchase.id]
        if !env.markAsPaidOk then (.error "mark as paid failed", ev3, s)
        else
          let s1 := markAsPaid s purchase.id
          let ev4 := ev3 ++ [.customerUpdate customer.id]
          if !env.updateFieldsOk then (.error "update fields failed", ev4, s1)
          else
            let s2 := updateCustomerSubscription s1 customer.id user.subscriptionUrl user.expireAt
            let ev5 := ev4 ++ [.sendMessage customer.telegramId]
            if !env.sendMessageOk then (.error "send message failed", ev5, s2)
            else
              match findReferralByReferee s2 customer.telegramId with
              | none => (.ok (), ev5, s2)
              | some referral =>
                if referral.bonusGranted then (.ok (), ev5, s2)
                else if env.findByRefereeErr then (.error "find referral failed", ev5, s2)
                else
                  match findCustomerByTelegramId s2 referral.referrerId with
                  | none => (.error "referrer not found", ev5, s2)
                  | some referrer =>
                    let ev6 := ev5 ++ [.provision referrer.id referrer.telegramId cfg.referralDays]
                    match env.referralProvisionResult with
                    | none => (.error "referral provision failed", ev6, s2)
                    | some refUser =>
                      let ev7 := ev6 ++ [.customerUpdate referrer.id]
                      if !env.referralUpdateFieldsOk then
                        (.error "referral update fields failed", ev7, s2)
                      else
                        let s3 := updateCustomerSubscription s2 referrer.id
                          refUser.subscriptionUrl refUser.expireAt
                        let ev8 := ev7 ++ [.grantFlip referral.id]
                        if !env.markBonusGrantedOk then
                          (.error "mark bonus granted failed", ev8, s3)
                        else
                          let s4 := markBonusGranted s3 referral.id
                          (.ok (), ev8 ++ [.sendMessage referrer.telegramId], s4)

/-- Embedding of `PaymentService.CancelPayment` (`src/unnamed/part_004`,
lines 539-560): find the purchase, then set its status to `Cancel` via
`UpdateFields` with no check of the current status.  `dbOk` models the
update call's success. -/
def cancelPayment (dbOk : Bool) (s : Store) (purchaseId : Int) :
    Except String Unit × Store :=
  match findPurchaseById s purchaseId with
  | none => (.error "purchase not found", s)
  | some _ =>
    if !dbOk then (.error "update failed", s)
    else (.ok (), setPurchaseStatus s purchaseId .statusCancel)

/-! ## Invoice creation (`PaymentService.CreatePurchase` and the four
provider-specific creators, `src/unnamed/part_004` lines 371-505 and
562-577).  `newId` stands for the id the repository `Create` call hands
back; oracles cover the repository insert, the external `CreateInvoice`
call, and the follow-up `UpdateFields`. -/

/-- Oracle results for one purchase-creation flow. -/
structure CreateEnv where
  createOk : Bool
  invoiceResult : Option Int
  updateOk : Bool
deriving DecidableEq, Repr

/-- `purchaseRepository.Create`: append the new row. -/
def insertPurchase (s : Store) (p : Purchase) : Store :=
  { s with purchases := s.purchases ++ [p] }

/-- Embedding of `createCryptoInvoice` (`src/unnamed/part_004`, lines
386-428): insert the purchase at `New`, call the CryptoPay
`CreateInvoice`, then update the invoice fields and bump the status to
`Pending`; a failure at any point leaves the row at `New`. -/
def createCryptoInvoice (ce : CreateEnv) (newId months : Int) (customer : Customer)
    (s : Store) : Except String Int × Store :=
  if !ce.createOk then (.error "create failed", s)
  else
    let s1 := insertPurchase s
      { id := newId, customerId := customer.id, invoiceType := .crypto,
        status := .statusNew, month := months, cryptoInvoiceId := none }
    match ce.invoiceResult with
    | none => (.error "invoice failed", s1)
    | some invId =>
      if !ce.updateOk then (.error "update failed", s1)
      else
        (.ok newId,
          { s1 with purchases := s1.purchases.map (fun p =>
              if p.id == newId then
                { p with status := .statusPending, cryptoInvoiceId := some invId }
              else p) })

/-- Embedding of `createYookasaInvoice` (`src/unnamed/part_004`, lines
430-465): same New-then-Pending shape as the crypto creator. -/
def createYookasaInvoice (ce : CreateEnv) (newId months : Int) (customer : Customer)
    (s : Store) : Except String Int × Store :=
  if !ce.createOk then (.error "create failed", s)
  else
    let s1 := insertPurchase s
      { id := newId, customerId := customer.id, invoiceType := .yookasa,
        status := .statusNew, month := months, cryptoInvoiceId := none }
    match ce.invoiceResult with
    | none => (.error "invoice failed", s1)
    | some _ =>
      if !ce.updateOk then (.error "update failed", s1)
      else (.ok newId, setPurchaseStatus s1 newId .statusPending)

/-- Embedding of `createTelegramInvoice` (`src/unnamed/part_004`, lines
467-505).  The source returns a nil error when the repository `Create`
fails, and it drops the `CreateInvoiceLink` error (the error variable is
overwritten by the `UpdateFields` call), so no invoice oracle appears
here. -/
def createTelegramInvoice (ce : CreateEnv) (newId months : Int) (customer : Customer)
    (s : Store) : Except String Int × Store :=
  if !ce.createOk then (.ok 0, s)
  else
    let s1 := insertPurchase s
      { id := newId, customerId := customer.id, invoiceType := .telegram,
        status := .statusNew, month := months, cryptoInvoiceId := none }
    if !ce.updateOk then (.error "update failed", s1)
    else (.ok newId, setPurchaseStatus s1 newId .statusPending)

/-- Embedding of `createTributeInvoice` (`src/unnamed/part_004`, lines
562-577): the purchase row is inserted directly with status `Pending`;
there is no `New` stage and no external invoice call. -/
def createTributeInvoice (ce : CreateEnv) (newId months : Int) (customer : Customer)
    (s : Store) : Except String Int × Store :=
  if !ce.createOk then (.error "create failed", s)
  else
    (.ok newId,
      insertPurchase s
        { id := newId, customerId := customer.id, invoiceType := .tribute,
          status := .statusPending, month := months, cryptoInvoiceId := none })

/-- Embedding of `PaymentService.CreatePurchase` (`src/unnamed/part_004`,
lines 371-384): dispatch on the invoice type. -/
def createPurchase (ce : CreateEnv) (newId months : Int) (customer : Customer)
    (it : InvoiceType) (s : Store) : Except String Int × Store :=
  match it with
  | .crypto => createCryptoInvoice ce newId months customer s
  | .yookasa => createYookasaInvoice ce newId months customer s
  | .telegram => createTelegramInvoice ce newId months customer s
  | .tribute => createTributeInvoice ce newId months customer s

/-! ## Invoice reconciliation pollers (`src/unnamed/part_000`). -/

/-- What the YooKassa `GetPayment` call reports for one pending
purchase's invoice: a query error, a cancelled invoice, a not-yet-paid
invoice, or a paid invoice carrying the `purchaseId` metadata (an
unparsable metadata value becomes `0`, as Go's `strconv.Atoi` yields `0`
and the source continues). -/
inductive YooInvoiceStatus
  | queryErr
  | cancelledInv
  | unpaidInv
  | paidInv (metaPurchaseId : Int)
deriving DecidableEq, Repr

/-- Oracles for one YooKassa poll tick: the per-purchase invoice status
(keyed by purchase id), the environment each `ProcessPurchaseById` call
runs under, and the success of the cancel update. -/
structure PollEnv where
  yooStatus : Int → YooInvoiceStatus
  procEnv : Env
  cancelUpdateOk : Bool

/-- The per-purchase loop of `checkYookasaInvoice` (`src/unnamed/part_000`,
lines 487-524): query each pending purchase's invoice; a query error is
logged and skipped; a cancelled invoice triggers the cancel path; a paid
invoice routes into `ProcessPurchaseById`; anything else is left for the
next tick.  Events are tagged with the id of the pending purchase whose
iteration produced them. -/
def yookassaTickLoop (pe : PollEnv) (cfg : Config) :
    List Purchase → Store → List (Int × Event) × Store
  | [], s => ([], s)
  | p :: rest, s =>
    let step : List (Int × Event) × Store :=
      match pe.yooStatus p.id with
      | .queryErr => ([], s)
      | .cancelledInv =>
        ([(p.id, .cancelAttempt p.id)], (cancelPayment pe.cancelUpdateOk s p.id).2)
      | .unpaidInv => ([], s)
      | .paidInv meta =>
        let r := processPurchaseById cfg pe.procEnv s meta
        (r.2.1.map (fun e => (p.id, e)), r.2.2)
    let r2 := yookassaTickLoop pe cfg rest step.2
    ((p.id, .query p.id) :: step.1 ++ r2.1, r2.2)

/-- Embedding of `checkYookasaInvoice` (`src/unnamed/part_000`, lines
466-525): load the Pending YooKassa purchases, return if none, else run
the per-purchase loop. -/
def checkYookasaInvoice (pe : PollEnv) (cfg : Config) (s : Store) :
    List (Int × Event) × Store :=
  let pending := s.purchases.filter
    (fun p => p.invoiceType == InvoiceType.yookasa && p.status == PurchaseStatus.statusPending)
  if pending.isEmpty then ([], s)
  else yookassaTickLoop pe cfg pending s

/-- CryptoPay invoice status; the source's `IsPaid()` is
`status == paidStatus`. -/
inductive CryptoInvoiceStatus
  | active
  | paidStatus
  | cancelledStatus
deriving DecidableEq, Repr

/-- One invoice row of the bulk `GetInvoices` response, with the
`purchaseId` parsed from its payload. -/
structure CryptoInvoice where
  invoiceId : Option Int
  status : CryptoInvoiceStatus
  payloadPurchaseId : Int
deriving DecidableEq, Repr

/-- The per-invoice loop of `checkCryptoPayInvoice`
(`src/unnamed/part_000`, lines 570-586): only invoices with a present id
that report paid are processed; every other status — including a
cancelled invoice — is ignored without any store update. -/
def cryptoTickLoop (procEnv : Env) (cfg : Config) :
    List CryptoInvoice → Store → List Event × Store
  | [], s => ([], s)
  | inv :: rest, s =>
    if inv.invoiceId.isSome && inv.status == CryptoInvoiceStatus.paidStatus then
      let r := processPurchaseById cfg procEnv s inv.payloadPurchaseId
      let r2 := cryptoTickLoop procEnv cfg rest r.2.2
      (r.2.1 ++ r2.1, r2.2)
    else cryptoTickLoop procEnv cfg rest s

/-- Embedding of `checkCryptoPayInvoice` (`src/unnamed/part_000`, lines
530-587): load the Pending CryptoPay purchases, collect their external
invoice ids, issue one bulk status query (`none` aborts the tick), then
run the per-invoice loop. -/
def checkCryptoPayInvoice (bulk : Option (List CryptoInvoice)) (procEnv : Env)
    (cfg : Config) (s : Store) : List Event × Store :=
  let pending := s.purchases.filter
    (fun p => p.invoiceType == InvoiceType.crypto && p.status == PurchaseStatus.statusPending)
  if pending.isEmpty then ([], s)
  else
    let invoiceIDs := pending.filterMap (fun p => p.cryptoInvoiceId)
    if invoiceIDs.isEmpty then ([], s)
    else
      match bulk with
      | none => ([], s)
      | some invoices => cryptoTickLoop procEnv cfg invoices s

/-! ## Interleaving model of two concurrent referral cascades

Used for the concurrency half of the referral-bonus invariant.  One
cascade invocation is the op sequence from `ProcessPurchaseById`: read
`bonus_granted` (returning when already set), extend the referrer's
subscription via `CreateOrUpdateUser`, then flip the flag; the flip is
the guarded update the spec prescribes (`MarkBonusGranted` is not among
the sources). -/

/-- One atomic action of the referral cascade. -/
inductive CascadeOp
  | readFlag
  | extendOp
  | flipOp
deriving DecidableEq, Repr

/-- The cascade of one `ProcessPurchaseById` invocation, in source
order: flag check first, referrer provisioning second, guarded flip
last. -/
def cascadeProgram : List CascadeOp := [.readFlag, .extendOp, .flipOp]

/-- Shared state plus the two processes' remaining ops: the
`bonus_granted` flag, the number of referrer provisioning calls, and the
number of successful flag flips. -/
structure CascSys where
  flag : Bool
  extendCount : Nat
  flips : Nat
  p1 : List CascadeOp
  p2 : List CascadeOp
deriving DecidableEq, Repr

/-- Execute one process's next op against the shared state; `readFlag`
on a set flag makes the process return (drops its remaining ops), and
`flipOp` is guarded: it increments `flips` only when the flag is still
clear. -/
def cascStepProc (flag : Bool) (extendCount flips : Nat) :
    List CascadeOp → Bool × Nat × Nat × List CascadeOp
  | [] => (flag, extendCount, flips, [])
  | .readFlag :: rest =>
    if flag then (flag, extendCount, flips, []) else (flag, extendCount, flips, rest)
  | .extendOp :: rest => (flag, extendCount + 1, flips, rest)
  | .flipOp :: rest =>
    if flag then (flag, extendCount, flips, rest) else (true, extendCount, flips + 1, rest)

/-- Schedule one step: `true` steps the first process, `false` the
second. -/
def cascStep (sys : CascSys) (first : Bool) : CascSys :=
  if first then
    let r := cascStepProc sys.flag sys.extendCount sys.flips sys.p1
    { flag := r.1, extendCount := r.2.1, flips := r.2.2.1, p1 := r.2.2.2, p2 := sys.p2 }
  else
    let r := cascStepProc sys.flag sys.extendCount sys.flips sys.p2
    { flag := r.1, extendCount := r.2.1, flips := r.2.2.1, p1 := sys.p1, p2 := r.2.2.2 }

/-- Run a whole schedule. -/
def cascRun (sys : CascSys) : List Bool → CascSys
  | [] => sys
  | b :: rest => cascRun (cascStep sys b) rest

/-- Two concurrent cascade invocations over a clear flag. -/
def cascInit : CascSys :=
  { flag := false, extendCount := 0, flips := 0, p1 := cascadeProgram, p2 := cascadeProgram }

/-! ## Tax-receipt client (`src/internal/moynalog/client.go`). -/

/-- Outcome of one `sendIncomeRequest` HTTP exchange: success, a 401/403
(`ErrAuth`), a timeout/5xx (`ErrRetryable`), or another 4xx
(`ErrClient`). -/
inductive SendResult
  | okSend
  | authErrSend
  | retryableSend
  | clientErrSend
deriving DecidableEq, Repr

/-- Oracles for one `CreateIncome` call: the outcomes of the successive
income POSTs and the token a real authentication request would yield
(`none` = auth HTTP failure). -/
structure MoyEnv where
  sendResults : List SendResult
  authResult : Option String
deriving DecidableEq, Repr

/-- Outbound HTTP calls of the moynalog client. -/
inductive MoyEvent
  | authRequest
  | sendAttempt
deriving DecidableEq, Repr

/-- Embedding of `Client.Authenticate` (`src/internal/moynalog/client.go`,
lines 64-137).  The source returns early whenever a non-empty token is
already stored — the stored token is never cleared, so this early return
also fires when the caller wanted to replace a stale token — and only
otherwise performs the auth HTTP request.  Returns (success, new token,
events). -/
def authenticate (env : MoyEnv) (token : Option String) :
    Bool × Option String × List MoyEvent :=
  if token.getD "" ≠ "" then (true, token, [])
  else
    match env.authResult with
    | none => (false, token, [MoyEvent.authRequest])
    | some tok => (true, some tok, [MoyEvent.authRequest])

/-- Embedding of `sendIncomeRequest` (lines 234-283): a missing token is
an immediate `ErrAuth` without any HTTP call; otherwise the next oracled
outcome is consumed and the POST is recorded. -/
def sendIncome (token : Option String) (r : SendResult) : SendResult × List MoyEvent :=
  match token with
  | none => (.authErrSend, [])
  | some _ => (r, [MoyEvent.sendAttempt])

/-- The retry loop of `CreateIncome` (lines 200-230), with `fuel` the
remaining attempts out of `maxRetries = 2`: an `ErrAuth` outcome calls
`Authenticate` and continues; a retryable outcome continues only when an
attempt remains; anything else surfaces. -/
def createIncomeGo (env : MoyEnv) : Nat → Option String → List SendResult →
    Except String Unit × List MoyEvent
  | 0, _, _ => (.error "failed to create income after max attempts", [])
  | fuel + 1, token, results =>
    let sent := sendIncome token (results.headD .clientErrSend)
    match sent.1 with
    | .okSend => (.ok (), sent.2)
    | .authErrSend =>
      let auth := authenticate env token
      if !auth.1 then (.error "reauthentication failed", sent.2 ++ auth.2.2)
      else
        let r := createIncomeGo env fuel auth.2.1 results.tail
        (r.1, sent.2 ++ auth.2.2 ++ r.2)
    | .retryableSend =>
      if 0 < fuel then
        let r := createIncomeGo env fuel token results.tail
        (r.1, sent.2 ++ r.2)
      else (.error "request failed", sent.2)
    | .clientErrSend => (.error "request failed", sent.2)

/-- Embedding of `Client.CreateIncome` (lines 163-231):
`ensureAuthenticated` (which short-circuits on any stored non-empty
token) followed by the two-attempt retry loop. -/
def createIncome (env : MoyEnv) (token : Option String) :
    Except String Unit × List MoyEvent :=
  let auth := authenticate env token
  if !auth.1 then (.error "authentication failed", auth.2.2)
  else
    let r := createIncomeGo env 2 auth.2.1 env.sendResults
    (r.1, auth.2.2 ++ r.2)

/-! ## Shared fixtures and helper lemmas. -/

/-- A Bool view of the orchestrator's result, avoiding decidable
equality on `Except`. -/
def isOkResult (r : Except String Unit) : Bool :=
  match r with
  | .ok _ => true
  | .error _ => false

/-- Sample customer used by the concrete scenarios. -/
def sampleCustomer : Customer :=
  { id := 10, telegramId := 500, subscriptionLink := none, expireAt := none }

/-- Sample pending CryptoPay purchase. -/
def samplePurchase : Purchase :=
  { id := 1, customerId := 10, invoiceType := .crypto, status := .statusPending,
    month := 1, cryptoInvoiceId := some 77 }

/-- Sample store: one pending purchase, its customer, no referrals. -/
def sampleStore : Store :=
  { purchases := [samplePurchase], customers := [sampleCustomer], referrals := [] }

/-- Same store with the purchase already `Paid`. -/
def samplePaidStore : Store :=
  { purchases := [{ samplePurchase with status := .statusPaid }],
    customers := [sampleCustomer], referrals := [] }

/-- Environment in which every collaborator call succeeds. -/
def allOkEnv : Env :=
  { cachedMessageId := none, provisionResult := some ⟨"u", 1000⟩,
    markAsPaidOk := true, updateFieldsOk := true, sendMessageOk := true,
    findByRefereeErr := false, referralProvisionResult := some ⟨"v", 2000⟩,
    referralUpdateFieldsOk := true, markBonusGrantedOk := true }

/-- Environment in which only the customer confirmation notification
fails. -/
def sendFailEnv : Env := { allOkEnv with sendMessageOk := false }

/-- Sample configuration. -/
def sampleCfg : Config := { trafficLimit := 100, referralDays := 7 }

/-- The referral lookup only reads the referrals list, which neither
`markAsPaid` nor `updateCustomerSubscription` touches. -/
theorem findReferralByReferee_after_paid (s : Store) (pid cid : Int) (l : String)
    (e : Int) (tid : Int) :
    findReferralByReferee (updateCustomerSubscription (markAsPaid s pid) cid l e) tid =
      findReferralByReferee s tid := rfl

/-- Updating a customer's subscription fields does not change purchase
lookups. -/
theorem findPurchaseById_updateCustomer (s : Store) (cid : Int) (l : String) (e : Int)
    (pid : Int) :
    findPurchaseById (updateCustomerSubscription s cid l e) pid =
      findPurchaseById s pid := rfl

/-- Mapping a status write over a purchase list leaves every lookup
either at its old status or at the written one. -/
theorem find_status_update (l : List Purchase) (pid : Int) (st : PurchaseStatus) (q : Int) :
    ((l.map (fun p => if p.id == pid then { p with status := st } else p)).find?
        (fun p => p.id == q)).map (fun p => p.status) =
      (l.find? (fun p => p.id == q)).map (fun p => p.status) ∨
    ((l.map (fun p => if p.id == pid then { p with status := st } else p)).find?
        (fun p => p.id == q)).map (fun p => p.status) = some st := by
  induction l with
  | nil => exact Or.inl rfl
  | cons a l ih =>
    simp only [List.map_cons]
    by_cases hp : (a.id == pid) = true
    · rw [if_pos hp]
      by_cases hq : (a.id == q) = true
      · right
        rw [List.find?_cons_of_pos (p := fun r : Purchase => r.id == q) _
          (show (({ a with status := st } : Purchase).id == q) = true from hq)]
        rfl
      · rw [List.find?_cons_of_neg (p := fun r : Purchase => r.id == q) _
            (show ¬(({ a with status := st } : Purchase).id == q) = true from hq),
            List.find?_cons_of_neg (p := fun r : Purchase => r.id == q) _ hq]
        exact ih
    · rw [if_neg hp]
      by_cases hq : (a.id == q) = true
      · left
        rw [List.find?_cons_of_pos (p := fun r : Purchase => r.id == q) _ hq,
            List.find?_cons_of_pos (p := fun r : Purchase => r.id == q) _ hq]
      · rw [List.find?_cons_of_neg (p := fun r : Purchase => r.id == q) _ hq,
            List.find?_cons_of_neg (p := fun r : Purchase => r.id == q) _ hq]
        exact ih

/-- The mapped status write hits the looked-up row itself. -/
theorem find_update_self (l : List Purchase) (pid : Int) (st : PurchaseStatus) (p : Purchase)
    (hfound : l.find? (fun r => r.id == pid) = some p) :
    (l.map (fun r => if r.id == pid then { r with status := st } else r)).find?
        (fun r => r.id == pid) = some { p with status := st } := by
  induction l with
  | nil => simp at hfound
  | cons a l ih =>
    simp only [List.map_cons]
    by_cases ha : (a.id == pid) = true
    · rw [List.find?_cons_of_pos (p := fun r : Purchase => r.id == pid) _ ha] at hfound
      have hap : a = p := by injection hfound
      subst hap
      rw [if_pos ha]
      exact List.find?_cons_of_pos (p := fun r : Purchase => r.id == pid) _
        (show (({ a with status := st } : Purchase).id == pid) = true from ha)
    · rw [List.find?_cons_of_neg (p := fun r : Purchase => r.id == pid) _ ha] at hfound
      rw [if_neg ha]
      rw [List.find?_cons_of_neg (p := fun r : Purchase => r.id == pid) _ ha]
      exact ih hfound

/-- Setting a purchase's status leaves every purchase either at its old
status or at the written one. -/
theorem purchaseStatus_setPurchaseStatus (s : Store) (pid : Int) (st : PurchaseStatus)
    (q : Int) :
    purchaseStatus (setPurchaseStatus s pid st) q = purchaseStatus s q ∨
      purchaseStatus (setPurchaseStatus s pid st) q = some st :=
  find_status_update s.purchases pid st q

/-- Setting a purchase's status hits the looked-up row itself. -/
theorem findPurchaseById_setPurchaseStatus_self (s : Store) (pid : Int)
    (st : PurchaseStatus) (p : Purchase) (hp : findPurchaseById s pid = some p) :
    findPurchaseById (setPurchaseStatus s pid st) pid = some { p with status := st } :=
  find_update_self s.purchases pid st p hp

/-! ## C1 -- the claimed at-most-once guarantee of `ProcessPurchaseById`. -/

/-- C1 counterexample: running `ProcessPurchaseById` twice on the same
purchase (the second call after the first completed successfully and
left the purchase `Paid`) performs two provisioning calls and two
customer updates, not one; the source has no already-`Paid` gate, so the
claim is false on the code. -/
theorem C1_counterexample :
    purchaseStatus (processPurchaseById sampleCfg allOkEnv sampleStore 1).2.2 1 =
      some .statusPaid ∧
    isOkResult (processPurchaseById sampleCfg allOkEnv sampleStore 1).1 = true ∧
    ((processPurchaseById sampleCfg allOkEnv sampleStore 1).2.1 ++
        (processPurchaseById sampleCfg allOkEnv
          (processPurchaseById sampleCfg allOkEnv sampleStore 1).2.2 1).2.1).countP
      isProvision = 2 ∧
    ((processPurchaseById sampleCfg allOkEnv sampleStore 1).2.1 ++
        (processPurchaseById sampleCfg allOkEnv
          (processPurchaseById sampleCfg allOkEnv sampleStore 1).2.2 1).2.1).countP
      isCustomerUpdate = 2 := by
  decide

/-- C1 amended: `ProcessPurchaseById` has no idempotency gate — on a
purchase that is already `Paid`, a successful invocation still performs
exactly one provisioning call and one customer update (so a repeat call
repeats them instead of returning early). -/
theorem C1_repeat_reprovisions (cfg : Config) (env : Env) (s : Store) (pid : Int)
    (p : Purchase) (c : Customer) (u : RemnaUser)
    (hp : findPurchaseById s pid = some p)
    (hpaid : p.status = PurchaseStatus.statusPaid)
    (hc : findCustomerById s p.customerId = some c)
    (hu : env.provisionResult = some u)
    (hm : env.markAsPaidOk = true)
    (huf : env.updateFieldsOk = true)
    (hsm : env.sendMessageOk = true)
    (hr : findReferralByReferee s c.telegramId = none) :
    isOkResult (processPurchaseById cfg env s pid).1 = true ∧
    (processPurchaseById cfg env s pid).2.1.countP isProvision = 1 ∧
    (processPurchaseById cfg env s pid).2.1.countP isCustomerUpdate = 1 := by
  cases hcm : env.cachedMessageId <;>
    simp [processPurchaseById, hp, hc, hu, hm, huf, hsm, hcm,
      findReferralByReferee_after_paid, hr, isProvision, isCustomerUpdate, isOkResult,
      List.countP_cons, List.countP_append]

/-- Witness for C1's amended statement at a concrete already-paid
store. -/
theorem C1_repeat_reprovisions_witness :
    isOkResult (processPurchaseById sampleCfg allOkEnv samplePaidStore 1).1 = true ∧
    (processPurchaseById sampleCfg allOkEnv samplePaidStore 1).2.1.countP isProvision = 1 ∧
    (processPurchaseById sampleCfg allOkEnv samplePaidStore 1).2.1.countP
      isCustomerUpdate = 1 :=
  C1_repeat_reprovisions sampleCfg allOkEnv samplePaidStore 1
    { samplePurchase with status := .statusPaid } sampleCustomer ⟨"u", 1000⟩
    (by decide) (by decide) (by decide) (by decide) (by decide) (by decide) (by decide)
    (by decide)

/-! ## C2 -- no `MarkAsPaid` after a failed provisioning call. -/

/-- C2: when the provisioning call (`CreateOrUpdateUser`) fails,
`ProcessPurchaseById` returns an error without ever invoking
`MarkAsPaid` and without touching the store, so a purchase is never
marked `Paid` without the provisioning call having succeeded first. -/
theorem C2_provision_failure_blocks_markpaid (cfg : Config) (env : Env) (s : Store)
    (pid : Int) (h : env.provisionResult = none) :
    (processPurchaseById cfg env s pid).2.1.countP isMarkPaid = 0 ∧
    (processPurchaseById cfg env s pid).2.2 = s ∧
    isOkResult (processPurchaseById cfg env s pid).1 = false := by
  cases hp : findPurchaseById s pid with
  | none => simp [processPurchaseById, hp, isOkResult]
  | some p =>
    cases hc : findCustomerById s p.customerId with
    | none => simp [processPurchaseById, hp, hc, isOkResult]
    | some c =>
      cases hcm : env.cachedMessageId <;>
        simp [processPurchaseById, hp, hc, h, hcm, isMarkPaid, isOkResult,
          List.countP_cons, List.countP_append]

/-- Witness for C2 at a concrete store and a failing provisioner. -/
theorem C2_provision_failure_blocks_markpaid_witness :
    (processPurchaseById sampleCfg { allOkEnv with provisionResult := none }
        sampleStore 1).2.1.countP isMarkPaid = 0 ∧
    (processPurchaseById sampleCfg { allOkEnv with provisionResult := none }
        sampleStore 1).2.2 = sampleStore ∧
    isOkResult (processPurchaseById sampleCfg { allOkEnv with provisionResult := none }
        sampleStore 1).1 = false :=
  C2_provision_failure_blocks_markpaid sampleCfg
    { allOkEnv with provisionResult := none } sampleStore 1 (by decide)

/-! ## C3 -- the confirmation-notification failure is not fire-and-forget. -/

/-- C3 counterexample: with every step succeeding except the customer
confirmation notification, `ProcessPurchaseById` returns an error — the
source propagates the `SendMessage` failure instead of only logging it —
even though the purchase was already marked `Paid` and the customer
record updated. -/
theorem C3_counterexample :
    isOkResult (processPurchaseById sampleCfg sendFailEnv sampleStore 1).1 = false ∧
    purchaseStatus (processPurchaseById sampleCfg sendFailEnv sampleStore 1).2.2 1 =
      some .statusPaid ∧
    (processPurchaseById sampleCfg sendFailEnv sampleStore 1).2.1.countP
      isCustomerUpdate = 1 := by
  decide

/-- C3 amended: a failure of the post-`MarkAsPaid` confirmation
notification is propagated as a fatal error of `ProcessPurchaseById`
(the operation does not return success), while the purchase stays
`Paid` and the customer update has already happened. -/
theorem C3_notification_failure_propagates (cfg : Config) (env : Env) (s : Store)
    (pid : Int) (p : Purchase) (c : Customer) (u : RemnaUser)
    (hp : findPurchaseById s pid = some p)
    (hc : findCustomerById s p.customerId = some c)
    (hu : env.provisionResult = some u)
    (hm : env.markAsPaidOk = true)
    (huf : env.updateFieldsOk = true)
    (hsm : env.sendMessageOk = false) :
    isOkResult (processPurchaseById cfg env s pid).1 = false ∧
    purchaseStatus (processPurchaseById cfg env s pid).2.2 p.id = some .statusPaid ∧
    (processPurchaseById cfg env s pid).2.1.countP isMarkPaid = 1 ∧
    (processPurchaseById cfg env s pid).2.1.countP isCustomerUpdate = 1 := by
  have hfind : findPurchaseById (markAsPaid s p.id) p.id =
      some { p with status := .statusPaid } := by
    have hself : findPurchaseById s p.id = some p := by
      have hid : (p.id == pid) = true := by
        have := List.find?_some hp
        simpa using this
      have hpe : p.id = pid := by simpa using hid
      rw [hpe]
      exact hp
    exact findPurchaseById_setPurchaseStatus_self s p.id .statusPaid p hself
  cases hcm : env.cachedMessageId <;>
    simp [processPurchaseById, hp, hc, hu, hm, huf, hsm, hcm, isMarkPaid,
      isCustomerUpdate, isOkResult, purchaseStatus, findPurchaseById_updateCustomer,
      hfind, List.countP_cons, List.countP_append]

/-- Witness for C3's amended statement at the concrete
notification-failure scenario. -/
theorem C3_notification_failure_propagates_witness :
    isOkResult (processPurchaseById sampleCfg sendFailEnv sampleStore 1).1 = false ∧
    purchaseStatus (processPurchaseById sampleCfg sendFailEnv sampleStore 1).2.2
        samplePurchase.id = some .statusPaid ∧
    (processPurchaseById sampleCfg sendFailEnv sampleStore 1).2.1.countP isMarkPaid = 1 ∧
    (processPurchaseById sampleCfg sendFailEnv sampleStore 1).2.1.countP
      isCustomerUpdate = 1 :=
  C3_notification_failure_propagates sampleCfg sendFailEnv sampleStore 1 samplePurchase
    sampleCustomer ⟨"u", 1000⟩ (by decide) (by decide) (by decide) (by decide) (by decide)
    (by decide)

/-! ## C5 -- the status state machine. -/

/-- Appending a fresh row (no existing row shares its id) makes the
lookup find it. -/
theorem find_append_fresh (l : List Purchase) (p : Purchase)
    (h : l.find? (fun r => r.id == p.id) = none) :
    (l ++ [p]).find? (fun r => r.id == p.id) = some p := by
  induction l with
  | nil => simp
  | cons a l ih =>
    by_cases ha : (a.id == p.id) = true
    · rw [List.find?_cons_of_pos (p := fun r : Purchase => r.id == p.id) _ ha] at h
      cases h
    · rw [List.find?_cons_of_neg (p := fun r : Purchase => r.id == p.id) _ ha] at h
      rw [List.cons_append,
        List.find?_cons_of_neg (p := fun r : Purchase => r.id == p.id) _ ha]
      exact ih h

/-- `CancelPayment` moves statuses only to `Cancel` (or not at all). -/
theorem cancelPayment_status (dbOk : Bool) (s : Store) (pid q : Int) :
    purchaseStatus (cancelPayment dbOk s pid).2 q = purchaseStatus s q ∨
      purchaseStatus (cancelPayment dbOk s pid).2 q = some PurchaseStatus.statusCancel := by
  unfold cancelPayment
  repeat' split
  all_goals
    first
      | exact Or.inl rfl
      | exact find_status_update s.purchases _ .statusCancel q

/-- `ProcessPurchaseById` moves statuses only to `Paid` (or not at
all). -/
theorem processPurchaseById_status (cfg : Config) (env : Env) (s : Store) (pid q : Int) :
    purchaseStatus (processPurchaseById cfg env s pid).2.2 q = purchaseStatus s q ∨
      purchaseStatus (processPurchaseById cfg env s pid).2.2 q =
        some PurchaseStatus.statusPaid := by
  unfold processPurchaseById
  dsimp only
  repeat' split
  all_goals
    first
      | exact Or.inl rfl
      | exact find_status_update s.purchases _ .statusPaid q

/-- C5 counterexample: `CancelPayment` moves an already-`Paid` purchase
to `Cancel` (so `Paid` is not terminal), and `createTributeInvoice`
creates its purchase directly in `Pending`, skipping `New`. -/
theorem C5_counterexample :
    purchaseStatus samplePaidStore 1 = some .statusPaid ∧
    purchaseStatus (cancelPayment true samplePaidStore 1).2 1 = some .statusCancel ∧
    purchaseStatus
        (createTributeInvoice ⟨true, none, true⟩ 5 1 sampleCustomer sampleStore).2 5 =
      some .statusPending := by
  decide

/-- C5 amended: the status discipline holds except for two deviations —
`CancelPayment` writes `Cancel` whatever the current status (including
`Paid`), and Tribute purchases are created directly in `Pending`.
Concretely: `CancelPayment` only ever writes `Cancel`,
`ProcessPurchaseById` only ever writes `Paid`, the crypto and YooKassa
creators insert the fresh purchase at `New` (still `New` when the
external invoice call fails), and the Tribute creator inserts it at
`Pending`. -/
theorem C5_transition_discipline :
    (∀ dbOk s pid q, purchaseStatus (cancelPayment dbOk s pid).2 q = purchaseStatus s q ∨
        purchaseStatus (cancelPayment dbOk s pid).2 q = some PurchaseStatus.statusCancel) ∧
    (∀ cfg env s pid q,
        purchaseStatus (processPurchaseById cfg env s pid).2.2 q = purchaseStatus s q ∨
        purchaseStatus (processPurchaseById cfg env s pid).2.2 q =
          some PurchaseStatus.statusPaid) ∧
    (∀ ce newId months cust s, findPurchaseById s newId = none → ce.createOk = true →
        ce.invoiceResult = none →
        purchaseStatus (createCryptoInvoice ce newId months cust s).2 newId =
          some PurchaseStatus.statusNew ∧
        purchaseStatus (createYookasaInvoice ce newId months cust s).2 newId =
          some PurchaseStatus.statusNew) ∧
    (∀ ce newId months cust s, findPurchaseById s newId = none → ce.createOk = true →
        purchaseStatus (createTributeInvoice ce newId months cust s).2 newId =
          some PurchaseStatus.statusPending) := by
  refine ⟨cancelPayment_status, processPurchaseById_status, ?_, ?_⟩
  · intro ce newId months cust s hfresh hok hinv
    constructor
    · have h2 := find_append_fresh s.purchases
        { id := newId, customerId := cust.id, invoiceType := .crypto,
          status := .statusNew, month := months, cryptoInvoiceId := none } hfresh
      simp [createCryptoInvoice, hok, hinv, purchaseStatus, findPurchaseById,
        insertPurchase, h2]
    · have h2 := find_append_fresh s.purchases
        { id := newId, customerId := cust.id, invoiceType := .yookasa,
          status := .statusNew, month := months, cryptoInvoiceId := none } hfresh
      simp [createYookasaInvoice, hok, hinv, purchaseStatus, findPurchaseById,
        insertPurchase, h2]
  · intro ce newId months cust s hfresh hok
    have h2 := find_append_fresh s.purchases
      { id := newId, customerId := cust.id, invoiceType := .tribute,
        status := .statusPending, month := months, cryptoInvoiceId := none } hfresh
    simp [createTributeInvoice, hok, purchaseStatus, findPurchaseById,
      insertPurchase, h2]

/-- Witness for C5's amended statement at concrete inputs. -/
theorem C5_transition_discipline_witness :
    (purchaseStatus (cancelPayment true sampleStore 1).2 1 = purchaseStatus sampleStore 1 ∨
      purchaseStatus (cancelPayment true sampleStore 1).2 1 =
        some PurchaseStatus.statusCancel) ∧
    purchaseStatus
        (createTributeInvoice ⟨true, none, true⟩ 5 1 sampleCustomer sampleStore).2 5 =
      some PurchaseStatus.statusPending ∧
    purchaseStatus
        (createCryptoInvoice ⟨true, none, true⟩ 5 1 sampleCustomer sampleStore).2 5 =
      some PurchaseStatus.statusNew :=
  ⟨C5_transition_discipline.1 true sampleStore 1 1,
   C5_transition_discipline.2.2.2 ⟨true, none, true⟩ 5 1 sampleCustomer sampleStore
     (by decide) rfl,
   (C5_transition_discipline.2.2.1 ⟨true, none, true⟩ 5 1 sampleCustomer sampleStore
     (by decide) rfl rfl).1⟩

/-! ## C4 -- cancelled invoices at the two pollers. -/

/-- The CryptoPay loop does nothing when no invoice in the batch reports
paid (the source checks only `IsPaid()`). -/
theorem cryptoTickLoop_skips (procEnv : Env) (cfg : Config) (invs : List CryptoInvoice)
    (s : Store) (h : ∀ inv ∈ invs, inv.status ≠ CryptoInvoiceStatus.paidStatus) :
    cryptoTickLoop procEnv cfg invs s = ([], s) := by
  induction invs with
  | nil => rfl
  | cons inv rest ih =>
    have hs : inv.status ≠ CryptoInvoiceStatus.paidStatus := h inv (by simp)
    have hcond :
        (inv.invoiceId.isSome && inv.status == CryptoInvoiceStatus.paidStatus) = false := by
      simp [hs]
    rw [cryptoTickLoop, if_neg (by simp [hcond])]
    exact ih (fun i hi => h i (by simp [hi]))

/-- C4 counterexample: a Pending CryptoPay purchase whose invoice is
reported cancelled is left untouched by the bulk poller tick — its
status stays `Pending` instead of becoming `Cancel`. -/
theorem C4_counterexample :
    (checkCryptoPayInvoice (some [⟨some 77, .cancelledStatus, 1⟩]) allOkEnv sampleCfg
        sampleStore).2 = sampleStore ∧
    purchaseStatus (checkCryptoPayInvoice (some [⟨some 77, .cancelledStatus, 1⟩]) allOkEnv
        sampleCfg sampleStore).2 1 = some .statusPending ∧
    (checkCryptoPayInvoice (some [⟨some 77, .cancelledStatus, 1⟩]) allOkEnv sampleCfg
        sampleStore).1.countP isProvision = 0 := by
  decide

/-- C4 amended: only the per-id YooKassa poller transitions a Pending
purchase with a cancelled invoice to `Cancel` (with no provisioning call
for it); the bulk CryptoPay poller ignores non-paid invoices entirely,
leaving such purchases `Pending`. -/
theorem C4_cancelled_invoice_paths :
    (∀ (p : Purchase) (cs : List Customer) (rs : List Referral) (pe : PollEnv)
        (cfg : Config),
        p.invoiceType = InvoiceType.yookasa → p.status = PurchaseStatus.statusPending →
        pe.yooStatus p.id = YooInvoiceStatus.cancelledInv → pe.cancelUpdateOk = true →
        purchaseStatus (checkYookasaInvoice pe cfg ⟨[p], cs, rs⟩).2 p.id =
          some PurchaseStatus.statusCancel ∧
        (checkYookasaInvoice pe cfg ⟨[p], cs, rs⟩).1.countP (fun e => isProvision e.2) = 0) ∧
    (∀ (s : Store) (env : Env) (cfg : Config) (invs : List CryptoInvoice),
        (∀ inv ∈ invs, inv.status ≠ CryptoInvoiceStatus.paidStatus) →
        (checkCryptoPayInvoice (some invs) env cfg s).2 = s ∧
        (checkCryptoPayInvoice (some invs) env cfg s).1 = []) := by
  constructor
  · intro p cs rs pe cfg hit hst hcanc hdb
    have hself : findPurchaseById ⟨[p], cs, rs⟩ p.id = some p := by
      unfold findPurchaseById
      simp
    have hset := findPurchaseById_setPurchaseStatus_self ⟨[p], cs, rs⟩ p.id
      PurchaseStatus.statusCancel p hself
    constructor
    · simp [checkYookasaInvoice, hit, hst, yookassaTickLoop, hcanc, cancelPayment,
        hself, hdb, purchaseStatus, hset]
    · simp [checkYookasaInvoice, hit, hst, yookassaTickLoop, hcanc, cancelPayment,
        hself, hdb, isProvision]
  · intro s env cfg invs h
    unfold checkCryptoPayInvoice
    dsimp only
    split
    · exact ⟨rfl, rfl⟩
    · split
      · exact ⟨rfl, rfl⟩
      · rw [cryptoTickLoop_skips env cfg invs s h]
        exact ⟨rfl, rfl⟩

/-- Witness for C4's amended statement: a concrete cancelled YooKassa
invoice ends `Cancel` with no provisioning, and a concrete cancelled
CryptoPay invoice leaves the store unchanged. -/
theorem C4_cancelled_invoice_paths_witness :
    (purchaseStatus
        (checkYookasaInvoice
          ⟨fun _ => .cancelledInv, allOkEnv, true⟩ sampleCfg
          ⟨[{ samplePurchase with invoiceType := .yookasa }], [sampleCustomer], []⟩).2
        samplePurchase.id = some PurchaseStatus.statusCancel) ∧
    (checkCryptoPayInvoice (some [⟨some 77, .cancelledStatus, 1⟩]) allOkEnv sampleCfg
        sampleStore).2 = sampleStore :=
  ⟨(C4_cancelled_invoice_paths.1 { samplePurchase with invoiceType := .yookasa }
      [sampleCustomer] [] ⟨fun _ => .cancelledInv, allOkEnv, true⟩ sampleCfg
      rfl rfl rfl rfl).1,
   (C4_cancelled_invoice_paths.2 sampleStore allOkEnv sampleCfg
      [⟨some 77, .cancelledStatus, 1⟩] (by decide)).1⟩

/-! ## C8 -- per-id query failures are isolated. -/

/-- C8: in the YooKassa per-purchase loop, a status-query failure for
the first pending purchase contributes only its query attempt; the
remaining purchases are processed exactly as they would have been
without it, on the unchanged store. -/
theorem C8_query_error_isolated (pe : PollEnv) (cfg : Config) (p : Purchase)
    (rest : List Purchase) (s : Store)
    (h : pe.yooStatus p.id = YooInvoiceStatus.queryErr) :
    yookassaTickLoop pe cfg (p :: rest) s =
      ((p.id, Event.query p.id) :: (yookassaTickLoop pe cfg rest s).1,
        (yookassaTickLoop pe cfg rest s).2) := by
  rw [yookassaTickLoop, h]
  rfl

/-- Fixture: a poll environment whose every status query fails. -/
def errPoll : PollEnv :=
  { yooStatus := fun _ => .queryErr, procEnv := allOkEnv, cancelUpdateOk := true }

/-- Witness for C8 at a concrete purchase and store. -/
theorem C8_query_error_isolated_witness :
    yookassaTickLoop errPoll sampleCfg [samplePurchase] sampleStore =
      ((samplePurchase.id, Event.query samplePurchase.id) ::
          (yookassaTickLoop errPoll sampleCfg [] sampleStore).1,
        (yookassaTickLoop errPoll sampleCfg [] sampleStore).2) :=
  C8_query_error_isolated errPoll sampleCfg samplePurchase [] sampleStore rfl

/-! ## C6 -- the referral bonus. -/

/-- The guarded flip preserves the flip invariant through one process
step. -/
theorem cascStepProc_flips (flag : Bool) (e fl : Nat) (ops : List CascadeOp)
    (h0 : flag = false → fl = 0) (h1 : fl ≤ 1) :
    ((cascStepProc flag e fl ops).1 = false → (cascStepProc flag e fl ops).2.2.1 = 0) ∧
      (cascStepProc flag e fl ops).2.2.1 ≤ 1 := by
  rcases ops with _ | ⟨op, rest⟩
  · exact ⟨h0, h1⟩
  · cases op <;> cases flag <;> simp_all [cascStepProc]

/-- The flip invariant is preserved by one scheduled step. -/
theorem cascStep_preserves (sys : CascSys) (b : Bool)
    (h0 : sys.flag = false → sys.flips = 0) (h1 : sys.flips ≤ 1) :
    ((cascStep sys b).flag = false → (cascStep sys b).flips = 0) ∧
      (cascStep sys b).flips ≤ 1 := by
  cases b <;> simp only [cascStep, if_true, if_false, Bool.false_eq_true] <;>
    exact cascStepProc_flips _ _ _ _ h0 h1

/-- The flip invariant holds along any schedule. -/
theorem cascRun_flips (sched : List Bool) (sys : CascSys)
    (h0 : sys.flag = false → sys.flips = 0) (h1 : sys.flips ≤ 1) :
    (cascRun sys sched).flips ≤ 1 := by
  induction sched generalizing sys with
  | nil => exact h1
  | cons b rest ih =>
    have h := cascStep_preserves sys b h0 h1
    exact ih (cascStep sys b) h.1 h.2

/-- `markBonusGranted` does not change purchase lookups. -/
theorem findPurchaseById_markBonus (s : Store) (rid pid : Int) :
    findPurchaseById (markBonusGranted s rid) pid = findPurchaseById s pid := rfl

/-- Whenever a `MarkBonusGranted` call appears in a run's trace, the run
made exactly one `MarkAsPaid` call and the purchase ends `Paid`: the
cascade runs strictly after the paid commit. -/
theorem processPurchaseById_grant_after_paid (cfg : Config) (env : Env) (s : Store)
    (pid rid : Int)
    (hmem : Event.grantFlip rid ∈ (processPurchaseById cfg env s pid).2.1) :
    (processPurchaseById cfg env s pid).2.1.countP isMarkPaid = 1 ∧
      purchaseStatus (processPurchaseById cfg env s pid).2.2 pid =
        some PurchaseStatus.statusPaid := by
  cases hp : findPurchaseById s pid with
  | none => simp [processPurchaseById, hp] at hmem
  | some p =>
    have hpe : p.id = pid := by
      have := List.find?_some hp
      simpa using this
    cases hc : findCustomerById s p.customerId with
    | none => simp [processPurchaseById, hp, hc] at hmem
    | some c =>
      cases hu : env.provisionResult with
      | none =>
        cases hcm : env.cachedMessageId <;>
          simp [processPurchaseById, hp, hc, hu, hcm] at hmem
      | some u =>
        cases hm : env.markAsPaidOk with
        | false =>
          cases hcm : env.cachedMessageId <;>
            simp [processPurchaseById, hp, hc, hu, hm, hcm] at hmem
        | true =>
          have hfind2 : findPurchaseById (markAsPaid s p.id) pid =
              some { p with status := PurchaseStatus.statusPaid } := by
            rw [← hpe]
            exact findPurchaseById_setPurchaseStatus_self s p.id
              PurchaseStatus.statusPaid p (by rw [hpe]; exact hp)
          clear hmem
          cases hcm : env.cachedMessageId <;>
            simp only [processPurchaseById, hp, hc, hu, hm, hcm] <;>
            repeat' split
          all_goals
            simp_all [isMarkPaid, purchaseStatus, findPurchaseById_updateCustomer,
              findPurchaseById_markBonus, List.countP_cons, List.countP_append]

/-- C6 counterexample: under an interleaving in which both concurrent
cascade invocations read `bonus_granted` before either flips it, the
referrer's subscription is extended twice — the provisioning call
precedes the guarded flip in the source — even though the flag flips
only once.  The claim's at-most-one extension under concurrency is
false. -/
theorem C6_counterexample :
    (cascRun cascInit [true, false, true, true, false, false]).extendCount = 2 ∧
    (cascRun cascInit [true, false, true, true, false, false]).flips = 1 := by
  decide

/-- C6 amended: the `bonus_granted` flag is flipped at most once under
any interleaving of two invocations (the guarded update holds), and in
every run of `ProcessPurchaseById` the flip happens only after the
purchase was marked `Paid`; but the referrer-extension call is not
covered by the guard, so two concurrent invocations may both extend
(see the counterexample). -/
theorem C6_referral_bonus_discipline :
    (∀ sched : List Bool, (cascRun cascInit sched).flips ≤ 1) ∧
    (∀ cfg env s pid rid,
        Event.grantFlip rid ∈ (processPurchaseById cfg env s pid).2.1 →
        (processPurchaseById cfg env s pid).2.1.countP isMarkPaid = 1 ∧
          purchaseStatus (processPurchaseById cfg env s pid).2.2 pid =
            some PurchaseStatus.statusPaid) :=
  ⟨fun sched => cascRun_flips sched cascInit (fun _ => rfl) (by decide),
   processPurchaseById_grant_after_paid⟩

/-- Fixture: the sample store with an unrewarded referral edge whose
referee is the sample customer and whose referrer is a second
customer. -/
def referralStore : Store :=
  { purchases := [samplePurchase],
    customers := [sampleCustomer,
      { id := 11, telegramId := 600, subscriptionLink := none, expireAt := none }],
    referrals := [{ id := 3, referrerId := 600, refereeId := 500, bonusGranted := false }] }

/-- Witness for C6's amended statement: the double-read schedule flips
once, and a concrete full run that grants the bonus has one `MarkAsPaid`
call and ends `Paid`. -/
theorem C6_referral_bonus_discipline_witness :
    (cascRun cascInit [true, false, true, true, false, false]).flips ≤ 1 ∧
    ((processPurchaseById sampleCfg allOkEnv referralStore 1).2.1.countP isMarkPaid = 1 ∧
      purchaseStatus (processPurchaseById sampleCfg allOkEnv referralStore 1).2.2 1 =
        some PurchaseStatus.statusPaid) :=
  ⟨C6_referral_bonus_discipline.1 [true, false, true, true, false, false],
   C6_referral_bonus_discipline.2 sampleCfg allOkEnv referralStore 1 3 (by decide)⟩

/-! ## C9 -- re-authentication on auth failures of the tax-receipt
client. -/

/-- True exactly on actual authentication HTTP requests. -/
def isAuthRequest (e : MoyEvent) : Bool :=
  match e with
  | .authRequest => true
  | .sendAttempt => false

/-- True exactly on income POST attempts. -/
def isSendAttempt (e : MoyEvent) : Bool :=
  match e with
  | .authRequest => false
  | .sendAttempt => true

/-- Fixture: a client whose income POSTs keep answering 401 while a real
re-authentication would succeed. -/
def staleTokenEnv : MoyEnv :=
  { sendResults := [.authErrSend, .authErrSend], authResult := some "fresh" }

/-- C9: with a (stale) token already stored and the income endpoint
answering 401 twice, `CreateIncome` performs zero re-authentication
requests — `Authenticate` returns early because a non-empty token is
still stored and is never cleared — makes its two POST attempts with the
same stale token, and fails; the documented one-re-auth-then-retry
behaviour never happens. -/
theorem C9_stale_token_no_reauth :
    isOkResult (createIncome staleTokenEnv (some "stale")).1 = false ∧
    (createIncome staleTokenEnv (some "stale")).2.countP isAuthRequest = 0 ∧
    (createIncome staleTokenEnv (some "stale")).2.countP isSendAttempt = 2 := by
  decide

end RemnaShop
